import Mathlib

/-!
Shallow embedding of `src/main.py` (a Streamlit front-end to the Hugging
Face text-to-image inference API) and proofs about the claims of its
specification.

The only logic in the repository is:
  - `generate_image` (main.py lines 73-105): build an HTTPS POST request,
    send it, and classify the response into a decoded image, a
    "model still loading" retry message, or a generic error message;
  - the Generate-button click handler (lines 108-129) that validates the
    prompt and token, calls `generate_image`, and stores a successful
    result in the session state;
  - the result display block (lines 131-154) with a download button whose
    file name embeds a timestamp, and a Create-New-Image button that
    clears the stored result.

The remote HTTP endpoint is modelled as a function from the constructed
request to a response (a deterministic mock, as the testable properties of
the spec prescribe). The PIL image decoder is external library code; it is
modelled at the boundary: decoding succeeds exactly on byte strings that
begin with the PNG signature, and a decode failure is a raised
`UnidentifiedImageError`, which `generate_image` does not catch, so it is
modelled as the `Except.error` case of the result.
-/

namespace ImageGenHF

/-- One byte of a response body, as a natural number below 256 in intent. -/
abbrev Byte := Nat

/-- Model of `PIL.Image.Image` as produced by `Image.open(io.BytesIO(content))`:
the object is backed by the raw bytes it was opened from. -/
structure PilImage where
  bytes : List Byte
deriving DecidableEq, Repr

/-- Model of the exception raised by `PIL.Image.open` on bytes it cannot
identify as an image (`PIL.UnidentifiedImageError`). -/
inductive PilError where
  | unidentifiedImage
deriving DecidableEq, Repr

/-- The eight-byte PNG file signature. -/
def pngSignature : List Byte := [137, 80, 78, 71, 13, 10, 26, 10]

/-- Whether the first list occurs at the head of the second list. -/
def leadsWith : List Byte → List Byte → Bool
  | [], _ => true
  | _ :: _, [] => false
  | a :: as, b :: bs => a == b && leadsWith as bs

/-- Model of `PIL.Image.open` at the decoder boundary (external library
code, not part of this repository): it yields an image exactly when the
bytes start with the PNG signature — the image format the spec and its
testable properties exercise — and the image is backed by those bytes. -/
def pilImageOpen (content : List Byte) : Option PilImage :=
  if leadsWith pngSignature content then some ⟨content⟩ else none

/-- Model of `requests.Response`: numeric status code, raw body bytes
(`response.content`) and the body decoded as text (`response.text`). -/
structure HttpResponse where
  status_code : Nat
  content : List Byte
  text : String
deriving DecidableEq, Repr

/-- The JSON payload of main.py lines 85-91. -/
structure Payload where
  inputs : String
  num_inference_steps : Nat
  guidance_scale : ℚ
deriving DecidableEq, Repr

/-- An outgoing HTTPS POST request as `requests.post(api_url, headers=headers,
json=payload)` issues it. -/
structure HttpRequest where
  url : String
  headers : List (String × String)
  body : Payload
deriving DecidableEq, Repr

/-- The API endpoint template of main.py line 77. -/
def api_url (model_id : String) : String :=
  "https://api-inference.huggingface.co/models/" ++ model_id

/-- The request that `generate_image` constructs (main.py lines 77-91). -/
def buildRequest (prompt model_id api_token : String) (num_steps : Nat)
    (guidance_scale : ℚ) : HttpRequest :=
  { url := api_url model_id
    headers := [("Authorization", "Bearer " ++ api_token)]
    body := { inputs := prompt
              num_inference_steps := num_steps
              guidance_scale := guidance_scale } }

/-- ASCII lower-casing of one character, as Python `str.lower` acts on the
ASCII range (the range all strings of this program inhabit). -/
def lowerChar (c : Char) : Char :=
  if 65 ≤ c.toNat ∧ c.toNat ≤ 90 then Char.ofNat (c.toNat + 32) else c

/-- Lower-casing of a character list, modelling `response.text.lower()`. -/
def lowerList (cs : List Char) : List Char := cs.map lowerChar

/-- Whether the first character list occurs at the head of the second. -/
def charLeads : List Char → List Char → Bool
  | [], _ => true
  | _ :: _, [] => false
  | a :: as, b :: bs => a == b && charLeads as bs

/-- Whether the first character list occurs contiguously anywhere inside
the second, modelling the Python `in` test on strings. -/
def hasSub (needle : List Char) : List Char → Bool
  | [] => charLeads needle []
  | c :: cs => charLeads needle (c :: cs) || hasSub needle cs

/-- The substring that main.py line 102 looks for in the lower-cased body. -/
def loadingNeedle : String := "waiting for the model to be loaded"

/-- The fixed retry message of main.py line 103. -/
def retryMessage : String :=
  "Model is still loading. Please wait a moment and try again."

/-- Embedding of `generate_image` (main.py lines 73-105). The network is
the `mock` argument: `requests.post` is modelled as applying `mock` to the
constructed request. A successful decode returns `(image, None)`; a
non-200 status returns `(None, message)`; a 200 status whose body PIL
cannot decode raises, which is the `Except.error` case. -/
def generate_image (prompt model_id api_token : String) (num_steps : Nat)
    (guidance_scale : ℚ) (mock : HttpRequest → HttpResponse) :
    Except PilError (Option PilImage × Option String) :=
  let response := mock (buildRequest prompt model_id api_token num_steps guidance_scale)
  if response.status_code = 200 then
    match pilImageOpen response.content with
    | some image => .ok (some image, none)
    | none => .error .unidentifiedImage
  else
    if hasSub loadingNeedle.data (lowerList response.text.data) then
      .ok (none, some retryMessage)
    else
      .ok (none, some ("Error: " ++ toString response.status_code ++ "\n" ++ response.text))

/-- The per-user Streamlit session state as this app uses it: the two keys
`last_image` and `last_prompt` (set at main.py lines 126-127, popped at
lines 152-153), each absent (`none`) or present (`some`). -/
structure SessionState where
  last_image : Option PilImage
  last_prompt : Option String
deriving DecidableEq, Repr

/-- The `disabled` condition of the Generate-Image button (main.py line
108): `not api_token or not prompt`, where a Python string is falsy
exactly when empty. -/
def generateButtonDisabled (api_token prompt : String) : Bool :=
  (api_token == "") || (prompt == "")

/-- Everything observable about one run of the Generate-button click
handler: the session state after the run, whether `generate_image` was
invoked, the inline error shown with `st.error` (if any), and the
exception that aborted the run (if any). -/
structure ClickOutcome where
  state : SessionState
  invoked : Bool
  shownError : Option String
  raised : Option PilError
deriving DecidableEq, Repr

/-- Embedding of the Generate-button click handler (main.py lines
108-129). The guard order follows the code: missing token, then missing
prompt, then the dispatch. A truthy `image` stores image and prompt in the
session state; otherwise a truthy `error` is shown with `st.error`. A
raised decode exception aborts the script run; Streamlit keeps the session
state of the previous run, so the state is unchanged in that case. -/
def handleGenerateClick (mock : HttpRequest → HttpResponse)
    (prompt model_id api_token : String) (num_steps : Nat)
    (guidance_scale : ℚ) (s : SessionState) : ClickOutcome :=
  if api_token = "" then
    ⟨s, false, some "Please enter your Hugging Face API token in the sidebar.", none⟩
  else if prompt = "" then
    ⟨s, false, some "Please enter a prompt to generate an image.", none⟩
  else
    match generate_image prompt model_id api_token num_steps guidance_scale mock with
    | .error e => ⟨s, true, none, some e⟩
    | .ok (some image, _) => ⟨⟨some image, some prompt⟩, true, none, none⟩
    | .ok (none, some error) =>
        ⟨s, true, if error = "" then none else some error, none⟩
    | .ok (none, none) => ⟨s, true, none, none⟩

/-- Embedding of the Create-New-Image button handler (main.py lines
150-154): both session keys are popped. -/
def createNewImageClick (_s : SessionState) : SessionState := ⟨none, none⟩

/-- A wall-clock instant, as far as `datetime.now().strftime` reads it. -/
structure DateTime where
  year : Nat
  month : Nat
  day : Nat
  hour : Nat
  minute : Nat
  second : Nat
deriving DecidableEq, Repr

/-- Zero-padding to two digits, as strftime %m %d %H %M %S produce. -/
def pad2 (n : Nat) : String := if n < 10 then "0" ++ toString n else toString n

/-- Zero-padding to four digits, as strftime %Y produces. -/
def pad4 (n : Nat) : String :=
  if n < 10 then "000" ++ toString n
  else if n < 100 then "00" ++ toString n
  else if n < 1000 then "0" ++ toString n
  else toString n

/-- The strftime format of main.py line 146: %Y%m%d_%H%M%S. -/
def strftimeCompact (t : DateTime) : String :=
  pad4 t.year ++ pad2 t.month ++ pad2 t.day ++ "_"
    ++ pad2 t.hour ++ pad2 t.minute ++ pad2 t.second

/-- The file name offered by the download button (main.py line 146),
computed from `datetime.now()` of the script run that renders the button. -/
def downloadFileName (now : DateTime) : String :=
  "ai_image_" ++ strftimeCompact now ++ ".png"

/-- Embedding of the result-display block (main.py lines 131-148): when a
`last_image` is in the session state, a download button is rendered whose
file name is computed from the current clock at render time; otherwise no
download is offered. The session state stores no timestamp, so `now` is
the only time available to the render. -/
def renderDownloadName (s : SessionState) (now : DateTime) : Option String :=
  match s.last_image with
  | some _ => some (downloadFileName now)
  | none => none

/-- The tag of a dispatch outcome in the vocabulary of the specification:
`Image`, `RetryableError` (the fixed retry message), `FatalError` (any
other returned message), or a raised exception. The `(none, none)` pair is
never produced by `generate_image`; it is tagged `fatalError` for
totality. -/
inductive ResultTag where
  | image
  | retryableError
  | fatalError
  | raised
deriving DecidableEq, Repr

/-- Tag extraction from a `generate_image` result. -/
def tagOf (r : Except PilError (Option PilImage × Option String)) : ResultTag :=
  match r with
  | .error _ => .raised
  | .ok (some _, _) => .image
  | .ok (none, some msg) => if msg = retryMessage then .retryableError else .fatalError
  | .ok (none, none) => .fatalError

/-- Whether a dispatch outcome is a returned `(None, message)` error pair. -/
def returnsErrorMessage (r : Except PilError (Option PilImage × Option String)) : Bool :=
  match r with
  | .ok (none, some _) => true
  | _ => false

/-- Whether a dispatch outcome is a returned pair at all (as opposed to a
raised exception). -/
def returnsPair (r : Except PilError (Option PilImage × Option String)) : Bool :=
  match r with
  | .ok _ => true
  | .error _ => false

/-- One user interaction step on the session state: a Generate-button
click (with arbitrary mock endpoint and widget values) or a
Create-New-Image click. Redraws do not touch the state. -/
inductive StateStep : SessionState → SessionState → Prop where
  | click (mock : HttpRequest → HttpResponse) (prompt model_id api_token : String)
      (num_steps : Nat) (guidance_scale : ℚ) (s : SessionState) :
      StateStep s (handleGenerateClick mock prompt model_id api_token num_steps guidance_scale s).state
  | clear (s : SessionState) : StateStep s (createNewImageClick s)

/-- Session states reachable from the fresh session (no keys set). -/
inductive Reachable : SessionState → Prop where
  | init : Reachable ⟨none, none⟩
  | step {s t : SessionState} : Reachable s → StateStep s t → Reachable t

/-! Helper lemmas shared by the claim theorems. -/

/-- A decoded image is backed by exactly the bytes it was opened from. -/
lemma pilImageOpen_bytes {content : List Byte} {img : PilImage}
    (h : pilImageOpen content = some img) : img.bytes = content := by
  unfold pilImageOpen at h
  split at h
  · cases h; rfl
  · cases h

/-- The session state after a Generate click is either unchanged or holds
exactly the new image together with the prompt that produced it. -/
lemma handleGenerateClick_state_cases (mock : HttpRequest → HttpResponse)
    (prompt model_id api_token : String) (num_steps : Nat) (g : ℚ)
    (s : SessionState) :
    (handleGenerateClick mock prompt model_id api_token num_steps g s).state = s
    ∨ ∃ img, (handleGenerateClick mock prompt model_id api_token num_steps g s).state
        = ⟨some img, some prompt⟩ := by
  unfold handleGenerateClick
  by_cases ht : api_token = ""
  · simp [ht]
  by_cases hp : prompt = ""
  · simp [ht, hp]
  rcases hg : generate_image prompt model_id api_token num_steps g mock with e | ⟨oi, oe⟩
  · simp [ht, hp, hg]
  · rcases oi with _ | img
    · rcases oe with _ | msg
      · simp [ht, hp, hg]
      · simp [ht, hp, hg]
    · right
      exact ⟨img, by simp [ht, hp, hg]⟩

/-- One interaction step preserves the both-keys-or-neither pairing. -/
lemma stateStep_preserves_paired {s t : SessionState} (h : StateStep s t)
    (hpair : s.last_image.isSome = s.last_prompt.isSome) :
    t.last_image.isSome = t.last_prompt.isSome := by
  cases h with
  | click mock prompt model_id api_token num_steps g =>
    rcases handleGenerateClick_state_cases mock prompt model_id api_token num_steps g s
      with hc | ⟨img, hc⟩
    · rw [hc]; exact hpair
    · rw [hc]; rfl
  | clear => rfl

/-- Every reachable session state has `last_image` and `last_prompt`
either both present or both absent. -/
lemma reachable_keys_paired : ∀ {s : SessionState}, Reachable s →
    s.last_image.isSome = s.last_prompt.isSome := by
  intro s hs
  induction hs with
  | init => rfl
  | step hr hstep ih => exact stateStep_preserves_paired hstep ih

/-! Claim theorems. -/

/-- Claim C1: for every response with status 200 whose body is valid PNG
bytes, `generate_image` decodes the body and returns it wrapped as an
image with no error, and the image is backed by exactly those bytes. -/
theorem generate_image_http200_png_ok (prompt model_id api_token : String)
    (num_steps : Nat) (g : ℚ) (resp : HttpResponse) (img : PilImage)
    (hstatus : resp.status_code = 200)
    (hopen : pilImageOpen resp.content = some img) :
    generate_image prompt model_id api_token num_steps g (fun _ => resp)
      = .ok (some img, none) ∧ img.bytes = resp.content := by
  refine ⟨?_, pilImageOpen_bytes hopen⟩
  simp [generate_image, hstatus, hopen]

/-- Witness for C1 at a concrete 200 response carrying the PNG signature. -/
theorem generate_image_http200_png_ok_witness :
    (⟨200, pngSignature, ""⟩ : HttpResponse).status_code = 200
    ∧ pilImageOpen (⟨200, pngSignature, ""⟩ : HttpResponse).content = some ⟨pngSignature⟩
    ∧ (generate_image "a red ball" "stabilityai/stable-diffusion-2-1" "hf_demo" 50 (15/2)
        (fun _ => ⟨200, pngSignature, ""⟩) = .ok (some ⟨pngSignature⟩, none)
       ∧ (⟨pngSignature⟩ : PilImage).bytes = (⟨200, pngSignature, ""⟩ : HttpResponse).content) :=
  ⟨rfl, rfl,
   generate_image_http200_png_ok "a red ball" "stabilityai/stable-diffusion-2-1" "hf_demo"
     50 (15/2) ⟨200, pngSignature, ""⟩ ⟨pngSignature⟩ rfl rfl⟩

/-- Claim C2: for every non-200 response whose body text contains the
model-loading substring case-insensitively, `generate_image` returns the
one fixed retry message, whatever the status code. -/
theorem generate_image_loading_retryable (prompt model_id api_token : String)
    (num_steps : Nat) (g : ℚ) (resp : HttpResponse)
    (hstatus : resp.status_code ≠ 200)
    (hbody : hasSub loadingNeedle.data (lowerList resp.text.data) = true) :
    generate_image prompt model_id api_token num_steps g (fun _ => resp)
      = .ok (none, some retryMessage) := by
  simp [generate_image, hstatus, hbody]

/-- Witness for C2 at a concrete 503 response with a mixed-case body. -/
theorem generate_image_loading_retryable_witness :
    (⟨503, [], "The model is currently Waiting FOR the Model to be Loaded, please hold"⟩
        : HttpResponse).status_code ≠ 200
    ∧ hasSub loadingNeedle.data
        (lowerList (⟨503, [], "The model is currently Waiting FOR the Model to be Loaded, please hold"⟩
          : HttpResponse).text.data) = true
    ∧ generate_image "a" "m" "t" 50 (15/2)
        (fun _ => ⟨503, [], "The model is currently Waiting FOR the Model to be Loaded, please hold"⟩)
        = .ok (none, some retryMessage) :=
  ⟨by decide, by decide,
   generate_image_loading_retryable "a" "m" "t" 50 (15/2)
     ⟨503, [], "The model is currently Waiting FOR the Model to be Loaded, please hold"⟩
     (by decide) (by decide)⟩

/-- Claim C3: for every non-200 response whose body lacks the
model-loading substring, `generate_image` returns an error message built
from the numeric status code and the raw body text verbatim. -/
theorem generate_image_other_error_fatal (prompt model_id api_token : String)
    (num_steps : Nat) (g : ℚ) (resp : HttpResponse)
    (hstatus : resp.status_code ≠ 200)
    (hbody : hasSub loadingNeedle.data (lowerList resp.text.data) = false) :
    generate_image prompt model_id api_token num_steps g (fun _ => resp)
      = .ok (none, some ("Error: " ++ toString resp.status_code ++ "\n" ++ resp.text)) := by
  simp [generate_image, hstatus, hbody]

/-- Witness for C3 at a concrete 500 response with an unrelated body. -/
theorem generate_image_other_error_fatal_witness :
    (⟨500, [], "unexpected failure"⟩ : HttpResponse).status_code ≠ 200
    ∧ hasSub loadingNeedle.data
        (lowerList (⟨500, [], "unexpected failure"⟩ : HttpResponse).text.data) = false
    ∧ generate_image "a" "m" "t" 50 (15/2) (fun _ => ⟨500, [], "unexpected failure"⟩)
        = .ok (none, some ("Error: " ++ toString (500 : Nat) ++ "\n" ++ "unexpected failure")) :=
  ⟨by decide, by decide,
   generate_image_other_error_fatal "a" "m" "t" 50 (15/2) ⟨500, [], "unexpected failure"⟩
     (by decide) (by decide)⟩

/-- Counterexample to claim C4 as stated: at a 200 response whose body is
not decodable, `generate_image` raises (the `Except.error` case) and does
not return a `(None, message)` error value at all. -/
theorem generate_image_decode_failure_not_returned :
    generate_image "a" "m" "t" 50 (15/2) (fun _ => ⟨200, [0], "x"⟩)
      = .error .unidentifiedImage
    ∧ returnsErrorMessage
        (generate_image "a" "m" "t" 50 (15/2) (fun _ => ⟨200, [0], "x"⟩)) = false :=
  ⟨rfl, rfl⟩

/-- Claim C4 amended: for every 200 response whose body the image decoder
cannot identify, `generate_image` raises the decode exception out of the
function (it does not catch it and does not return an error value). -/
theorem generate_image_decode_failure_raises (prompt model_id api_token : String)
    (num_steps : Nat) (g : ℚ) (resp : HttpResponse)
    (hstatus : resp.status_code = 200)
    (hopen : pilImageOpen resp.content = none) :
    generate_image prompt model_id api_token num_steps g (fun _ => resp)
      = .error .unidentifiedImage := by
  simp [generate_image, hstatus, hopen]

/-- Witness for the amended C4 at a concrete undecodable 200 response. -/
theorem generate_image_decode_failure_raises_witness :
    (⟨200, [1], "binary"⟩ : HttpResponse).status_code = 200
    ∧ pilImageOpen (⟨200, [1], "binary"⟩ : HttpResponse).content = none
    ∧ generate_image "a" "m" "t" 50 (15/2) (fun _ => ⟨200, [1], "binary"⟩)
        = .error .unidentifiedImage :=
  ⟨rfl, rfl,
   generate_image_decode_failure_raises "a" "m" "t" 50 (15/2) ⟨200, [1], "binary"⟩ rfl rfl⟩

/-- Claim C5: when the prompt or the token is empty, the click handler
rejects the request before dispatch — `generate_image` is not invoked —
and the Generate button is disabled in the first place. -/
theorem click_rejects_empty_inputs (mock : HttpRequest → HttpResponse)
    (prompt model_id api_token : String) (num_steps : Nat) (g : ℚ)
    (s : SessionState) (h : prompt = "" ∨ api_token = "") :
    (handleGenerateClick mock prompt model_id api_token num_steps g s).invoked = false
    ∧ generateButtonDisabled api_token prompt = true := by
  constructor
  · unfold handleGenerateClick
    by_cases ht : api_token = ""
    · simp [ht]
    · rcases h with hp | hT
      · simp [ht, hp]
      · exact absurd hT ht
  · rcases h with hp | ht
    · simp [generateButtonDisabled, hp]
    · simp [generateButtonDisabled, ht]

/-- Witness for C5 at an empty prompt with a non-empty token. -/
theorem click_rejects_empty_inputs_witness :
    (("" : String) = "" ∨ ("tok" : String) = "")
    ∧ ((handleGenerateClick (fun _ => ⟨200, pngSignature, ""⟩) "" "m" "tok" 50 (15/2)
          ⟨none, none⟩).invoked = false
       ∧ generateButtonDisabled "tok" "" = true) :=
  ⟨Or.inl rfl,
   click_rejects_empty_inputs (fun _ => ⟨200, pngSignature, ""⟩) "" "m" "tok" 50 (15/2)
     ⟨none, none⟩ (Or.inl rfl)⟩

/-- Counterexample to claim C6 as stated: starting a new request does not
discard the held result. A click with a non-empty prompt and token that
dispatches (a new request starts) and fails with HTTP 500 leaves the
previously held image in the session state. -/
theorem failed_request_keeps_last_image :
    (handleGenerateClick (fun _ => ⟨500, [], "boom"⟩) "new prompt" "m" "tok" 50 (15/2)
        ⟨some ⟨[7]⟩, some "old"⟩).invoked = true
    ∧ (handleGenerateClick (fun _ => ⟨500, [], "boom"⟩) "new prompt" "m" "tok" 50 (15/2)
        ⟨some ⟨[7]⟩, some "old"⟩).state = ⟨some ⟨[7]⟩, some "old"⟩ :=
  ⟨rfl, rfl⟩

/-- Claim C6 amended: the session state holds at most one result; a
successful dispatch overwrites it with exactly the new image and prompt
(the prior value is discarded), and the explicit Create-New-Image click
discards it; a failed new request leaves it in place. -/
theorem last_result_overwrite_and_clear (mock : HttpRequest → HttpResponse)
    (prompt model_id api_token : String) (num_steps : Nat) (g : ℚ)
    (s : SessionState) (img : PilImage) (rest : Option String)
    (ht : api_token ≠ "") (hp : prompt ≠ "")
    (hg : generate_image prompt model_id api_token num_steps g mock
            = .ok (some img, rest)) :
    (handleGenerateClick mock prompt model_id api_token num_steps g s).state
      = ⟨some img, some prompt⟩
    ∧ createNewImageClick s = ⟨none, none⟩ := by
  constructor
  · simp [handleGenerateClick, ht, hp, hg]
  · rfl

/-- Witness for the amended C6: a successful dispatch over an old held
result replaces it with the new image and prompt. -/
theorem last_result_overwrite_and_clear_witness :
    ("tok" : String) ≠ ""
    ∧ ("a cat" : String) ≠ ""
    ∧ generate_image "a cat" "m" "tok" 50 (15/2) (fun _ => ⟨200, pngSignature, ""⟩)
        = .ok (some ⟨pngSignature⟩, none)
    ∧ ((handleGenerateClick (fun _ => ⟨200, pngSignature, ""⟩) "a cat" "m" "tok" 50 (15/2)
          ⟨some ⟨[9]⟩, some "old"⟩).state = ⟨some ⟨pngSignature⟩, some "a cat"⟩
       ∧ createNewImageClick ⟨some ⟨[9]⟩, some "old"⟩ = ⟨none, none⟩) :=
  ⟨by decide, by decide, rfl,
   last_result_overwrite_and_clear (fun _ => ⟨200, pngSignature, ""⟩) "a cat" "m" "tok"
     50 (15/2) ⟨some ⟨[9]⟩, some "old"⟩ ⟨pngSignature⟩ none (by decide) (by decide) rfl⟩

/-- Counterexample to claim C7 as stated: the download file name is not
computed from the time of generation. The click handler receives no clock
and the session state stores no timestamp, so a redraw at 09:45:17 of an
image generated at 09:30:00 offers a name stamped 09:45:17, which differs
from the name the generation time would give. -/
theorem download_name_not_generation_time :
    renderDownloadName
        (handleGenerateClick (fun _ => ⟨200, pngSignature, ""⟩) "a red ball" "m" "hf_demo"
          50 (15/2) ⟨none, none⟩).state
        ⟨2026, 10, 12, 9, 45, 17⟩
      = some "ai_image_20261012_094517.png"
    ∧ downloadFileName ⟨2026, 10, 12, 9, 30, 0⟩ ≠ "ai_image_20261012_094517.png" :=
  ⟨rfl, by decide⟩

/-- Claim C7 amended: whenever a result is held, the download button
offers the name `ai_image_<YYYYMMDD_HHMMSS>.png` stamped with the current
clock of the script run that renders the button (which coincides with the
generation time only on the run right after generation). -/
theorem download_name_uses_render_time (s : SessionState) (now : DateTime)
    (h : s.last_image.isSome = true) :
    renderDownloadName s now = some ("ai_image_" ++ strftimeCompact now ++ ".png") := by
  rcases hs : s.last_image with _ | img
  · simp [hs] at h
  · simp [renderDownloadName, hs, downloadFileName]

/-- Witness for the amended C7 at a concrete state and instant. -/
theorem download_name_uses_render_time_witness :
    (⟨some ⟨[1]⟩, some "p"⟩ : SessionState).last_image.isSome = true
    ∧ renderDownloadName ⟨some ⟨[1]⟩, some "p"⟩ ⟨2027, 1, 2, 3, 4, 5⟩
        = some ("ai_image_" ++ strftimeCompact ⟨2027, 1, 2, 3, 4, 5⟩ ++ ".png") :=
  ⟨rfl, download_name_uses_render_time ⟨some ⟨[1]⟩, some "p"⟩ ⟨2027, 1, 2, 3, 4, 5⟩ rfl⟩

/-- Claim C8: dispatch is a pure function of its input: two calls with the
same request arguments against mock endpoints that answer the constructed
request identically produce results with identical tags. -/
theorem dispatch_same_mock_same_tag (prompt model_id api_token : String)
    (num_steps : Nat) (g : ℚ) (mock1 mock2 : HttpRequest → HttpResponse)
    (h : mock1 (buildRequest prompt model_id api_token num_steps g)
       = mock2 (buildRequest prompt model_id api_token num_steps g)) :
    tagOf (generate_image prompt model_id api_token num_steps g mock1)
      = tagOf (generate_image prompt model_id api_token num_steps g mock2) := by
  simp only [generate_image]
  rw [h]

/-- Witness for C8: two syntactically different mocks that agree on the
constructed request yield the same tag. -/
theorem dispatch_same_mock_same_tag_witness :
    (fun _ : HttpRequest => (⟨503, [], "waiting for the model to be loaded"⟩ : HttpResponse))
        (buildRequest "a" "m" "t" 50 (15/2))
      = (fun r : HttpRequest =>
          if r.url = "" then (⟨500, [], "x"⟩ : HttpResponse)
          else ⟨503, [], "waiting for the model to be loaded"⟩)
        (buildRequest "a" "m" "t" 50 (15/2))
    ∧ tagOf (generate_image "a" "m" "t" 50 (15/2)
        (fun _ => ⟨503, [], "waiting for the model to be loaded"⟩))
      = tagOf (generate_image "a" "m" "t" 50 (15/2)
        (fun r => if r.url = "" then ⟨500, [], "x"⟩
                  else ⟨503, [], "waiting for the model to be loaded"⟩)) :=
  ⟨by decide,
   dispatch_same_mock_same_tag "a" "m" "t" 50 (15/2)
     (fun _ => ⟨503, [], "waiting for the model to be loaded"⟩)
     (fun r => if r.url = "" then ⟨500, [], "x"⟩
               else ⟨503, [], "waiting for the model to be loaded"⟩)
     (by decide)⟩

/-- Counterexample to claim C9 as stated: not every response makes
`generate_image` return a pair — at a 200 response with an undecodable
body it raises instead of returning. -/
theorem undecodable_success_no_pair :
    generate_image "b" "m" "t" 50 (15/2) (fun _ => ⟨200, [1, 2, 3], "nope"⟩)
      = .error .unidentifiedImage
    ∧ returnsPair
        (generate_image "b" "m" "t" 50 (15/2) (fun _ => ⟨200, [1, 2, 3], "nope"⟩)) = false :=
  ⟨rfl, rfl⟩

/-- Claim C9 amended: whenever `generate_image` does return a pair,
exactly one component is populated: a decoded image with no error, or no
image with an error message. -/
theorem returned_pair_exactly_one_some (prompt model_id api_token : String)
    (num_steps : Nat) (g : ℚ) (mock : HttpRequest → HttpResponse)
    (image : Option PilImage) (error : Option String)
    (h : generate_image prompt model_id api_token num_steps g mock = .ok (image, error)) :
    (image.isSome = true ∧ error = none) ∨ (image = none ∧ error.isSome = true) := by
  simp only [generate_image] at h
  split at h
  · split at h
    · cases h; left; exact ⟨rfl, rfl⟩
    · cases h
  · split at h
    · cases h; right; exact ⟨rfl, rfl⟩
    · cases h; right; exact ⟨rfl, rfl⟩

/-- Witness for the amended C9 at a concrete 200 response with PNG bytes. -/
theorem returned_pair_exactly_one_some_witness :
    generate_image "a" "m" "t" 50 (15/2) (fun _ => ⟨200, pngSignature, ""⟩)
      = .ok (some ⟨pngSignature⟩, none)
    ∧ (((some ⟨pngSignature⟩ : Option PilImage).isSome = true
        ∧ (none : Option String) = none)
       ∨ ((some ⟨pngSignature⟩ : Option PilImage) = none
          ∧ (none : Option String).isSome = true)) :=
  ⟨rfl,
   returned_pair_exactly_one_some "a" "m" "t" 50 (15/2) (fun _ => ⟨200, pngSignature, ""⟩)
     (some ⟨pngSignature⟩) none rfl⟩

/-- Claim C10: at every reachable session state, a dispatch that returns
an error message leaves the state unchanged (the previously retained
result, if any, is still present and unmodified), and the two session keys
are both present or both absent. -/
theorem error_dispatch_frame_and_pairing (s : SessionState) (hs : Reachable s) :
    (∀ (mock : HttpRequest → HttpResponse) (prompt model_id api_token : String)
       (num_steps : Nat) (g : ℚ) (msg : String),
       generate_image prompt model_id api_token num_steps g mock = .ok (none, some msg) →
       (handleGenerateClick mock prompt model_id api_token num_steps g s).state = s)
    ∧ s.last_image.isSome = s.last_prompt.isSome := by
  constructor
  · intro mock prompt model_id api_token num_steps g msg hg
    unfold handleGenerateClick
    by_cases ht : api_token = ""
    · simp [ht]
    by_cases hp : prompt = ""
    · simp [ht, hp]
    simp [ht, hp, hg]
  · exact reachable_keys_paired hs

/-- Witness for C10 at the initial state, a reachable state with an old
result, and a concrete 500 dispatch. -/
theorem error_dispatch_frame_and_pairing_witness :
    Reachable (⟨none, none⟩ : SessionState)
    ∧ generate_image "a ball" "m" "tok" 50 (15/2) (fun _ => ⟨500, [], "boom"⟩)
        = .ok (none, some "Error: 500\nboom")
    ∧ (handleGenerateClick (fun _ => ⟨500, [], "boom"⟩) "a ball" "m" "tok" 50 (15/2)
        ⟨none, none⟩).state = (⟨none, none⟩ : SessionState)
    ∧ (⟨none, none⟩ : SessionState).last_image.isSome
        = (⟨none, none⟩ : SessionState).last_prompt.isSome :=
  ⟨Reachable.init, rfl,
   (error_dispatch_frame_and_pairing ⟨none, none⟩ Reachable.init).1
     (fun _ => ⟨500, [], "boom"⟩) "a ball" "m" "tok" 50 (15/2) "Error: 500\nboom" rfl,
   (error_dispatch_frame_and_pairing ⟨none, none⟩ Reachable.init).2⟩

end ImageGenHF
